import Mathlib

/-!
Shallow embedding of the terraform-provider-k3d resource layer.

The provider code (internal/provider) drives three resources, cluster,
node and registry, through Create/Read/Delete handlers that call an
external k3d runtime client.  External calls are modelled by an
environment record holding each call result (an `Option String` error,
with `none` meaning success, except where noted), and each handler is
embedded as a function from its flat inputs and that environment to the
list of external calls it performs, the diagnostics it returns, and the
resource id it assigns.  Pure attribute expanders (expandPorts,
expandVolumes, expandRegistryVolumes, the exposure-option expanders and
the registries block expansion) are embedded directly as Lean functions
on typed blocks, since the schema guarantees the dynamic casts in the Go
code succeed.
-/

namespace K3d

/-- The k3d library constant types.DefaultObjectNamePrefix. -/
def defaultObjectNamePrefix : String := "k3d"

/-- The k3d library constant types.DefaultRegistryPort. -/
def defaultRegistryPort : String := "5000"

/-- Severity of a terraform-plugin-sdk diagnostic: the SDK offers exactly
these two levels. -/
inductive Severity where
  | error
  | warning
deriving DecidableEq, Repr

/-- One diagnostic returned to the plugin host. -/
structure Diagnostic where
  severity : Severity
  summary : String
deriving DecidableEq, Repr

/-- diag.FromErr: wraps a collaborator error into an Error diagnostic whose
summary is exactly the underlying error text. -/
def Diagnostic.fromErr (e : String) : Diagnostic :=
  { severity := Severity.error, summary := e }

/-- diag.Errorf with a fixed message (no format arguments are used by the
provider on these paths). -/
def Diagnostic.errorf (msg : String) : Diagnostic :=
  { severity := Severity.error, summary := msg }

/-- The fixed message of resourceClusterCreate for the already-exists check. -/
def alreadyExistsMsg : String :=
  "Failed to create cluster because a cluster with that name already exists"

/-- The fixed message of resourceClusterCreate when the rollback delete also
fails. -/
def rollbackFailedMsg : String :=
  "Cluster creation FAILED, also FAILED to rollback changes!"

/-- Result of running a handler: either it returns diagnostics to the host,
or it crashes (a Go nil-map / nil-pointer dereference). -/
inductive Outcome (α : Type) where
  | ok (val : α)
  | crash
deriving DecidableEq, Repr

/- ---------------------------------------------------------------------
Attribute expanders (resource_cluster.go / resource_registry.go)
--------------------------------------------------------------------- -/

/-- One element of the cluster schema port block.  TypeInt attributes read
back as the Go zero value 0 when unset; TypeString as the empty string. -/
structure PortBlock where
  host : String
  hostPort : Nat
  containerPort : Nat
  protocol : String
  nodeFilters : List String
deriving DecidableEq, Repr

/-- k3d v1alpha4.PortWithNodeFilters. -/
structure PortWithNodeFilters where
  port : String
  nodeFilters : List String
deriving DecidableEq, Repr

/-- The Sprintf("%s:%d:%d/%s", host, host_port, container_port, protocol)
encoding used by expandPorts. -/
def encodePort (p : PortBlock) : String :=
  p.host ++ ":" ++ toString p.hostPort ++ ":" ++ toString p.containerPort
    ++ "/" ++ p.protocol

/-- expandPorts from resource_cluster.go: an empty block list yields nil,
otherwise each block is encoded verbatim. -/
def expandPorts (l : List PortBlock) : List PortWithNodeFilters :=
  match l with
  | [] => []
  | _ => l.map (fun p => { port := encodePort p, nodeFilters := p.nodeFilters })

/-- One element of the cluster schema volume block. -/
structure VolumeBlock where
  source : String
  destination : String
  nodeFilters : List String
deriving DecidableEq, Repr

/-- k3d v1alpha4.VolumeWithNodeFilters. -/
structure VolumeWithNodeFilters where
  volume : String
  nodeFilters : List String
deriving DecidableEq, Repr

/-- The volume string built by expandVolumes: destination alone, replaced
by source:destination when source is non-empty. -/
def encodeVolume (source destination : String) : String :=
  if source != "" then source ++ ":" ++ destination else destination

/-- expandVolumes from resource_cluster.go. -/
def expandVolumes (l : List VolumeBlock) : List VolumeWithNodeFilters :=
  match l with
  | [] => []
  | _ => l.map (fun v =>
      { volume := encodeVolume v.source v.destination
        nodeFilters := v.nodeFilters })

/-- One element of the registry schema volume block (no node filters). -/
structure RegVolumeBlock where
  source : String
  destination : String
deriving DecidableEq, Repr

/-- expandRegistryVolumes from resource_registry.go. -/
def expandRegistryVolumes (l : List RegVolumeBlock) : List String :=
  match l with
  | [] => []
  | _ => l.map (fun v => encodeVolume v.source v.destination)

/-- The registries.create nested block of the cluster schema.  Note that
host_port is declared TypeString there, unlike the TypeInt port blocks. -/
structure RegistryCreateBlock where
  name : String
  host : String
  image : String
  hostPort : String
deriving DecidableEq, Repr

/-- The registries block of the cluster schema (MaxItems 1). -/
structure RegistriesBlock where
  config : String
  create : List RegistryCreateBlock
  use : List String
deriving DecidableEq, Repr

/-- k3d v1alpha4.SimpleConfigRegistryCreateConfig, as filled by
resourceClusterCreate. -/
structure SimpleConfigRegistryCreateConfig where
  name : String
  host : String
  image : String
  hostPort : String
deriving DecidableEq, Repr

/-- The Registries part of v1alpha4.SimpleConfig. -/
structure SimpleConfigRegistries where
  config : String
  create : Option SimpleConfigRegistryCreateConfig
  use : List String
deriving DecidableEq, Repr

/-- The registries handling of resourceClusterCreate (lines 474 to 494):
config and use are copied, and the create sub-block is copied field by
field, host_port included, exactly when it has exactly one element.  No
port allocation happens here. -/
def expandRegistries (l : List RegistriesBlock) : SimpleConfigRegistries :=
  match l with
  | [] => { config := "", create := none, use := [] }
  | v :: _ =>
    { config := v.config
      create :=
        match v.create with
        | [rtc] => some
            { name := rtc.name, host := rtc.host, image := rtc.image
              hostPort := rtc.hostPort }
        | _ => none
      use := v.use }

/-- The kube_api block of the cluster schema. -/
structure KubeApiBlock where
  host : String
  hostIP : String
  hostPort : Nat
deriving DecidableEq, Repr

/-- k3d v1alpha4.SimpleExposureOpts (host port held as a string). -/
structure SimpleExposureOpts where
  host : String
  hostIP : String
  hostPort : String
deriving DecidableEq, Repr

/-- expandExposureOptions from resource_cluster.go: util.GetFreePort is an
external OS call, modelled by the freePort argument; an absent block or a
zero host_port takes the free port. -/
def expandExposureOptions (freePort : Nat) (l : List KubeApiBlock) :
    SimpleExposureOpts :=
  match l with
  | [] => { host := "", hostIP := "", hostPort := toString freePort }
  | v :: _ =>
    let hostPort := if v.hostPort == 0 then freePort else v.hostPort
    { host := v.host, hostIP := v.hostIP, hostPort := toString hostPort }

/-- The kubeconfig block of the cluster schema. -/
structure KubeconfigBlock where
  updateDefaultKubeconfig : Bool
  switchCurrentContext : Bool
deriving DecidableEq, Repr

/-- k3d v1alpha4.SimpleConfigOptionsKubeconfig. -/
structure KubeconfigOpts where
  switchCurrentContext : Bool
  updateDefaultKubeconfig : Bool
deriving DecidableEq, Repr

/-- expandConfigOptionsKubeconfig from resource_cluster.go. -/
def expandConfigOptionsKubeconfig (l : List KubeconfigBlock) : KubeconfigOpts :=
  match l with
  | [] => { switchCurrentContext := false, updateDefaultKubeconfig := false }
  | v :: _ =>
    { switchCurrentContext := v.switchCurrentContext
      updateDefaultKubeconfig := v.updateDefaultKubeconfig }

/- ---------------------------------------------------------------------
Kubeconfig model and flattenCredentials
--------------------------------------------------------------------- -/

/-- clientcmdapi.AuthInfo, restricted to the fields flattenCredentials
reads. -/
structure AuthInfo where
  clientCertificateData : String
  clientKeyData : String
deriving DecidableEq, Repr

/-- clientcmdapi.Cluster, restricted to the fields flattenCredentials
reads. -/
structure ClusterEntry where
  certificateAuthorityData : String
  server : String
deriving DecidableEq, Repr

/-- clientcmdapi.Config: the two Go maps are modelled as association
lists keyed by entry name. -/
structure KubeConfig where
  authInfos : List (String × AuthInfo)
  clusters : List (String × ClusterEntry)
deriving DecidableEq, Repr

/-- First-match lookup in an association list, the model of a Go map
read. -/
def lookupEntry {α : Type} (l : List (String × α)) (k : String) : Option α :=
  match l with
  | [] => none
  | p :: rest => if p.fst == k then some p.snd else lookupEntry rest k

/-- clientcmd.Write, an external serializer: modelled abstractly as a
listing of the entry names (its exact output never matters to any claim,
only that it is a function of the whole config). -/
def clientcmdWrite (config : KubeConfig) : String :=
  String.intercalate "\n"
    (config.authInfos.map Prod.fst ++ config.clusters.map Prod.fst)

/-- The flat credentials block computed for the cluster resource. -/
structure Credentials where
  clientCertificate : String
  clientKey : String
  clusterCACertificate : String
  host : String
  raw : String
deriving DecidableEq, Repr

/-- flattenCredentials from resource_cluster.go.  The Go code indexes
config.AuthInfos and config.Clusters and dereferences the resulting
pointers with no presence check; a missing entry is a nil dereference,
modelled here by `none` (the defined branch mirrors the Go field
reads exactly). -/
def flattenCredentials (clusterName : String) (config : KubeConfig) :
    Option Credentials :=
  let clusterID := defaultObjectNamePrefix ++ "-" ++ clusterName
  let authInfoName := "admin@" ++ defaultObjectNamePrefix ++ "-" ++ clusterName
  let raw := clientcmdWrite config
  match lookupEntry config.authInfos authInfoName,
        lookupEntry config.clusters clusterID with
  | some ai, some c => some
      { clientCertificate := ai.clientCertificateData
        clientKey := ai.clientKeyData
        clusterCACertificate := c.certificateAuthorityData
        host := c.server
        raw := raw }
  | _, _ => none

/- ---------------------------------------------------------------------
External calls and the node / registry structs handed to them
--------------------------------------------------------------------- -/

/-- client.WriteKubeConfigOptions as built by resourceClusterCreate. -/
structure WriteKubeConfigOptions where
  updateExisting : Bool
  overwriteExisting : Bool
  updateCurrentContext : Bool
deriving DecidableEq, Repr

/-- types.ExposureOpts for the registry resource. -/
structure ExposureOpts where
  port : String
  hostIP : String
  hostPort : String
deriving DecidableEq, Repr

/-- types.Registry as built by resourceRegistryCreate. -/
structure Registry where
  exposureOpts : ExposureOpts
  host : String
  image : String
  volumes : List String
  proxyRemoteURL : String
  proxyUsername : String
  proxyPassword : String
deriving DecidableEq, Repr

/-- types.Node as built by resourceNodeCreate (the role label map is the
single entry types.LabelRole, kept as roleLabel). -/
structure K3dNode where
  name : String
  role : String
  image : String
  roleLabel : String
  restart : Bool
  memory : String
deriving DecidableEq, Repr

/-- One call to the external k3d client or config library, in program
order. -/
inductive ExtCall where
  | transform
  | process
  | validate
  | clusterGet (name : String)
  | clusterRun
  | clusterDelete (name : String)
  | kubeconfigGetWrite (opts : WriteKubeConfigOptions)
  | kubeconfigGet (name : String)
  | registryRun (reg : Registry)
  | nodeAdd (node : K3dNode) (cluster : String)
  | nodeGet (name : String)
  | nodeDelete (name : String)
deriving DecidableEq, Repr

/- ---------------------------------------------------------------------
Cluster resource handlers (resource_cluster.go)
--------------------------------------------------------------------- -/

/-- The claim-relevant part of v1alpha4.SimpleConfig as assembled by
resourceClusterCreate (env, label and the k3d/k3s/runtime option groups
are not needed by this development and are omitted). -/
structure SimpleConfig where
  name : String
  agents : Nat
  servers : Nat
  clusterToken : String
  image : String
  network : String
  exposeAPI : SimpleExposureOpts
  ports : List PortWithNodeFilters
  volumes : List VolumeWithNodeFilters
  registries : SimpleConfigRegistries
  kubeconfigOpts : KubeconfigOpts
deriving DecidableEq, Repr

/-- The flat attributes of the cluster resource read by the handlers. -/
structure ClusterInputs where
  name : String
  agents : Nat
  servers : Nat
  token : String
  image : String
  network : String
  kubeApi : List KubeApiBlock
  port : List PortBlock
  volume : List VolumeBlock
  registries : List RegistriesBlock
  kubeconfig : List KubeconfigBlock
deriving DecidableEq, Repr

/-- The simpleConfig assembly at the top of resourceClusterCreate. -/
def buildSimpleConfig (freePort : Nat) (i : ClusterInputs) : SimpleConfig :=
  { name := i.name
    agents := i.agents
    servers := i.servers
    clusterToken := i.token
    image := i.image
    network := i.network
    exposeAPI := expandExposureOptions freePort i.kubeApi
    ports := expandPorts i.port
    volumes := expandVolumes i.volume
    registries := expandRegistries i.registries
    kubeconfigOpts := expandConfigOptionsKubeconfig i.kubeconfig }

/-- Results of the external calls a cluster Read makes.  For ClusterGet
and KubeconfigGet, `none` means the call succeeded. -/
structure ClusterReadEnv where
  clusterGetErr : Option String
  network : String
  token : String
  kubeconfigGetErr : Option String
  kubeconfig : KubeConfig
deriving DecidableEq, Repr

/-- What a cluster Read hands back: the calls it made, its outcome, and
the warnings it logged. -/
structure ClusterReadOutput where
  calls : List ExtCall
  result : Outcome (List Diagnostic)
  warnings : List String
deriving DecidableEq, Repr

/-- resourceClusterRead: fetch the cluster (propagating the error), set
network and token, then best-effort fetch the kubeconfig; a fetch failure
is only logged as a warning, while a fetched config missing the expected
entries makes flattenCredentials crash.  (The d.Set calls on
schema-declared fields cannot fail and are not modelled; the inner err
check of the Go code re-tests the same err and its else branch is
dead.) -/
def resourceClusterRead (name : String) (env : ClusterReadEnv) :
    ClusterReadOutput :=
  match env.clusterGetErr with
  | some e =>
    { calls := [ExtCall.clusterGet name]
      result := Outcome.ok [Diagnostic.fromErr e], warnings := [] }
  | none =>
    let calls := [ExtCall.clusterGet name, ExtCall.kubeconfigGet name]
    match env.kubeconfigGetErr with
    | some e => { calls := calls, result := Outcome.ok [], warnings := [e] }
    | none =>
      match flattenCredentials name env.kubeconfig with
      | some _ => { calls := calls, result := Outcome.ok [], warnings := [] }
      | none => { calls := calls, result := Outcome.crash, warnings := [] }

/-- Results of the external calls a cluster Create makes.  The transform
either fails or yields the KubeconfigOpts of the transformed cluster
config (the only transformed field Create later reads); for ClusterGet,
`none` means a cluster with that name was found. -/
structure ClusterCreateEnv where
  freePort : Nat
  transform : Except String KubeconfigOpts
  processErr : Option String
  validateErr : Option String
  clusterGetErr : Option String
  clusterRunErr : Option String
  clusterDeleteErr : Option String
  kubeconfigWriteErr : Option String
  read : ClusterReadEnv
deriving Repr

/-- What a cluster Create hands back: the calls it made, its outcome,
the warnings it logged, and the resource id it assigned (none when
d.SetId was never reached). -/
structure ClusterCreateOutput where
  calls : List ExtCall
  result : Outcome (List Diagnostic)
  warnings : List String
  id : Option String
deriving DecidableEq, Repr

/-- resourceClusterCreate: build the simple config, transform, process
and validate it (each failure propagated via diag.FromErr), fail with a
fixed message when ClusterGet finds an existing cluster, run the create
with a compensating ClusterDelete on failure, optionally merge the
kubeconfig (a merge error is only logged as a warning), set the id to the
plain cluster name and chain into Read. -/
def resourceClusterCreate (i : ClusterInputs) (env : ClusterCreateEnv) :
    ClusterCreateOutput :=
  let sc := buildSimpleConfig env.freePort i
  match env.transform with
  | Except.error e =>
    { calls := [ExtCall.transform]
      result := Outcome.ok [Diagnostic.fromErr e], warnings := [], id := none }
  | Except.ok ko =>
    match env.processErr with
    | some e =>
      { calls := [ExtCall.transform, ExtCall.process]
        result := Outcome.ok [Diagnostic.fromErr e], warnings := [], id := none }
    | none =>
      match env.validateErr with
      | some e =>
        { calls := [ExtCall.transform, ExtCall.process, ExtCall.validate]
          result := Outcome.ok [Diagnostic.fromErr e], warnings := [], id := none }
      | none =>
        match env.clusterGetErr with
        | none =>
          { calls := [ExtCall.transform, ExtCall.process, ExtCall.validate,
                      ExtCall.clusterGet i.name]
            result := Outcome.ok [Diagnostic.errorf alreadyExistsMsg]
            warnings := [], id := none }
        | some _ =>
          let pre := [ExtCall.transform, ExtCall.process, ExtCall.validate,
                      ExtCall.clusterGet i.name, ExtCall.clusterRun]
          match env.clusterRunErr with
          | some e =>
            match env.clusterDeleteErr with
            | some _ =>
              { calls := pre ++ [ExtCall.clusterDelete i.name]
                result := Outcome.ok [Diagnostic.errorf rollbackFailedMsg]
                warnings := [], id := none }
            | none =>
              { calls := pre ++ [ExtCall.clusterDelete i.name]
                result := Outcome.ok [Diagnostic.fromErr e]
                warnings := [], id := none }
          | none =>
            let wopts : WriteKubeConfigOptions :=
              { updateExisting := true
                overwriteExisting := false
                updateCurrentContext := sc.kubeconfigOpts.switchCurrentContext }
            let wcalls :=
              if ko.updateDefaultKubeconfig
              then [ExtCall.kubeconfigGetWrite wopts] else []
            let wwarn :=
              match ko.updateDefaultKubeconfig, env.kubeconfigWriteErr with
              | true, some e => [e]
              | _, _ => []
            let r := resourceClusterRead i.name env.read
            { calls := pre ++ wcalls ++ r.calls
              result := r.result
              warnings := wwarn ++ r.warnings
              id := some i.name }

/-- resourceClusterDelete: one ClusterDelete call with direct error
propagation. -/
def resourceClusterDelete (name : String) (deleteErr : Option String) :
    List ExtCall × List Diagnostic :=
  match deleteErr with
  | some e => ([ExtCall.clusterDelete name], [Diagnostic.fromErr e])
  | none => ([ExtCall.clusterDelete name], [])

/- ---------------------------------------------------------------------
Registry resource handlers (resource_registry.go)
--------------------------------------------------------------------- -/

/-- The port block of the registry schema (the host attribute is declared
but never read by expandExposureOpts). -/
structure RegistryPortBlock where
  host : String
  hostIP : String
  hostPort : Nat
deriving DecidableEq, Repr

/-- expandExposureOpts from resource_registry.go: the registry listens on
the fixed default registry port, bound to the given host port, or to a
freshly allocated free port when the block is absent or host_port is
zero. -/
def expandExposureOpts (freePort : Nat) (l : List RegistryPortBlock) :
    ExposureOpts :=
  match l with
  | [] =>
    { port := defaultRegistryPort, hostIP := "", hostPort := toString freePort }
  | v :: _ =>
    let hostPort := if v.hostPort == 0 then freePort else v.hostPort
    { port := defaultRegistryPort, hostIP := v.hostIP
      hostPort := toString hostPort }

/-- The flat attributes of the registry resource. -/
structure RegistryInputs where
  name : String
  image : String
  port : List RegistryPortBlock
  proxyRemoteURL : String
  proxyUsername : String
  proxyPassword : String
  volume : List RegVolumeBlock
deriving DecidableEq, Repr

/-- Results of the external calls the registry handlers make. -/
structure RegistryEnv where
  freePort : Nat
  registryRunErr : Option String
  nodeGetErr : Option String
deriving DecidableEq, Repr

/-- What a registry or node handler hands back. -/
structure SimpleOutput where
  calls : List ExtCall
  diags : List Diagnostic
  id : Option String
deriving DecidableEq, Repr

/-- resourceRegistryCreate: derive the prefixed registry id, build the
registry struct (its Host is the prefixed id), run it (propagating the
error with no id assigned), then set the id and chain into Read. -/
def resourceRegistryCreate (i : RegistryInputs) (env : RegistryEnv) :
    SimpleOutput :=
  let registryID := defaultObjectNamePrefix ++ "-" ++ i.name
  let reg : Registry :=
    { exposureOpts := expandExposureOpts env.freePort i.port
      host := registryID
      image := i.image
      volumes := expandRegistryVolumes i.volume
      proxyRemoteURL := i.proxyRemoteURL
      proxyUsername := i.proxyUsername
      proxyPassword := i.proxyPassword }
  match env.registryRunErr with
  | some e =>
    { calls := [ExtCall.registryRun reg]
      diags := [Diagnostic.fromErr e], id := none }
  | none =>
    let calls := [ExtCall.registryRun reg, ExtCall.nodeGet registryID]
    match env.nodeGetErr with
    | some e => { calls := calls, diags := [Diagnostic.fromErr e]
                  id := some registryID }
    | none => { calls := calls, diags := [], id := some registryID }

/-- resourceRegistryRead: one NodeGet call on the prefixed id with direct
error propagation. -/
def resourceRegistryRead (name : String) (nodeGetErr : Option String) :
    List ExtCall × List Diagnostic :=
  let registryID := defaultObjectNamePrefix ++ "-" ++ name
  match nodeGetErr with
  | some e => ([ExtCall.nodeGet registryID], [Diagnostic.fromErr e])
  | none => ([ExtCall.nodeGet registryID], [])

/-- resourceRegistryDelete: one NodeDelete call on the prefixed id with
direct error propagation. -/
def resourceRegistryDelete (name : String) (nodeDeleteErr : Option String) :
    List ExtCall × List Diagnostic :=
  let registryID := defaultObjectNamePrefix ++ "-" ++ name
  match nodeDeleteErr with
  | some e => ([ExtCall.nodeDelete registryID], [Diagnostic.fromErr e])
  | none => ([ExtCall.nodeDelete registryID], [])

/- ---------------------------------------------------------------------
Node resource handlers (resource_node.go)
--------------------------------------------------------------------- -/

/-- The flat attributes of the node resource. -/
structure NodeInputs where
  name : String
  cluster : String
  image : String
  memory : String
  role : String
deriving DecidableEq, Repr

/-- Results of the external calls the node handlers make. -/
structure NodeEnv where
  nodeAddErr : Option String
  nodeGetErr : Option String
deriving DecidableEq, Repr

/-- resourceNodeCreate: derive the prefixed node id, build the node
struct, add it to the cluster (propagating the error with no id
assigned), then set the id and chain into Read. -/
def resourceNodeCreate (i : NodeInputs) (env : NodeEnv) : SimpleOutput :=
  let nodeID := defaultObjectNamePrefix ++ "-" ++ i.name
  let node : K3dNode :=
    { name := nodeID, role := i.role, image := i.image
      roleLabel := i.role, restart := true, memory := i.memory }
  match env.nodeAddErr with
  | some e =>
    { calls := [ExtCall.nodeAdd node i.cluster]
      diags := [Diagnostic.fromErr e], id := none }
  | none =>
    let calls := [ExtCall.nodeAdd node i.cluster, ExtCall.nodeGet nodeID]
    match env.nodeGetErr with
    | some e => { calls := calls, diags := [Diagnostic.fromErr e]
                  id := some nodeID }
    | none => { calls := calls, diags := [], id := some nodeID }

/-- resourceNodeRead: one NodeGet call on the prefixed id with direct
error propagation. -/
def resourceNodeRead (name : String) (nodeGetErr : Option String) :
    List ExtCall × List Diagnostic :=
  let nodeID := defaultObjectNamePrefix ++ "-" ++ name
  match nodeGetErr with
  | some e => ([ExtCall.nodeGet nodeID], [Diagnostic.fromErr e])
  | none => ([ExtCall.nodeGet nodeID], [])

/-- resourceNodeDelete: one NodeDelete call on the prefixed id with
direct error propagation. -/
def resourceNodeDelete (name : String) (nodeDeleteErr : Option String) :
    List ExtCall × List Diagnostic :=
  let nodeID := defaultObjectNamePrefix ++ "-" ++ name
  match nodeDeleteErr with
  | some e => ([ExtCall.nodeDelete nodeID], [Diagnostic.fromErr e])
  | none => ([ExtCall.nodeDelete nodeID], [])

/- ---------------------------------------------------------------------
Small helpers for the statements
--------------------------------------------------------------------- -/

/-- Whether the first list is an initial segment of the second. -/
def leadsList : List Char → List Char → Bool
  | [], _ => true
  | _ :: _, [] => false
  | a :: as, b :: bs => a == b && leadsList as bs

/-- Whether the first list occurs contiguously inside the second. -/
def occursIn (needle : List Char) : List Char → Bool
  | [] => needle.isEmpty
  | c :: rest => leadsList needle (c :: rest) || occursIn needle rest

/-- Whether the needle occurs as a substring of the haystack. -/
def strContains (hay needle : String) : Bool :=
  occursIn needle.toList hay.toList

/-- A decimal string denoting a port number between 1 and 65535. -/
def isValidPortString (s : String) : Bool :=
  match s.toNat? with
  | some n => 1 ≤ n && n ≤ 65535
  | none => false

/- ---------------------------------------------------------------------
Spec-side encodings (section 4.2 of the specification), for comparison
with the code-derived expanders
--------------------------------------------------------------------- -/

/-- The volume wire encoding as worded by the spec: source:destination
when source is non-empty, else destination alone. -/
def specVolumeString (source destination : String) : String :=
  if source ≠ "" then source ++ ":" ++ destination else destination

/-- The port wire encoding as worded by the spec:
host:hostPort:containerPort/protocol. -/
def specPortString (host : String) (hostPort containerPort : Nat)
    (protocol : String) : String :=
  host ++ ":" ++ toString hostPort ++ ":" ++ toString containerPort
    ++ "/" ++ protocol

/-- The spec reading of severity comparison: with the two SDK levels,
only an error is strictly more severe than a warning. -/
def Severity.strictlyMoreSevere (a b : Severity) : Prop :=
  a = Severity.error ∧ b = Severity.warning

/- ---------------------------------------------------------------------
Concrete fixtures used by counterexamples and witnesses
--------------------------------------------------------------------- -/

/-- Flat cluster attributes with every optional block absent. -/
def sampleInputs (name : String) : ClusterInputs :=
  { name := name, agents := 0, servers := 1, token := "", image := ""
    network := "", kubeApi := [], port := [], volume := []
    registries := [], kubeconfig := [] }

/-- A read environment in which the kubeconfig fetch fails (so the
credentials step is skipped with a logged warning). -/
def sampleReadEnvWarn : ClusterReadEnv :=
  { clusterGetErr := none, network := "bridge", token := "tok"
    kubeconfigGetErr := some "kubeconfig unavailable"
    kubeconfig := { authInfos := [], clusters := [] } }

/-- An environment in which every pipeline stage of a cluster Create
succeeds (ClusterGet finds no pre-existing cluster). -/
def sampleCreateEnvOk : ClusterCreateEnv :=
  { freePort := 40000
    transform := Except.ok
      { switchCurrentContext := false, updateDefaultKubeconfig := false }
    processErr := none, validateErr := none
    clusterGetErr := some "cluster not found"
    clusterRunErr := none, clusterDeleteErr := none
    kubeconfigWriteErr := none
    read := sampleReadEnvWarn }

/-- Like sampleCreateEnvOk but with the kubeconfig-sync option enabled. -/
def sampleCreateEnvKC : ClusterCreateEnv :=
  { sampleCreateEnvOk with
      transform := Except.ok
        { switchCurrentContext := false, updateDefaultKubeconfig := true } }

/-- An environment in which the cluster run fails and the compensating
delete succeeds. -/
def envRunFailDeleteOk : ClusterCreateEnv :=
  { sampleCreateEnvOk with clusterRunErr := some "boom" }

/-- An environment in which the cluster run fails and the compensating
delete fails as well. -/
def envRunAndDeleteFail : ClusterCreateEnv :=
  { sampleCreateEnvOk with
      clusterRunErr := some "boom", clusterDeleteErr := some "bang" }

/-- A registries block whose create sub-block leaves host_port unset. -/
def regBlockNoPort : RegistriesBlock :=
  { config := ""
    create := [{ name := "reg", host := "", image := "", hostPort := "" }]
    use := [] }

/-- A port block with host_port and protocol both unset. -/
def portBlockUnset : PortBlock :=
  { host := "", hostPort := 0, containerPort := 80, protocol := ""
    nodeFilters := [] }

/-- Concrete registry attributes. -/
def sampleRegistryInputs : RegistryInputs :=
  { name := "reg", image := "registry:2", port := [], proxyRemoteURL := ""
    proxyUsername := "", proxyPassword := "", volume := [] }

/-- A registry environment in which every call succeeds. -/
def sampleRegistryEnvOk : RegistryEnv :=
  { freePort := 40001, registryRunErr := none, nodeGetErr := none }

/-- Concrete node attributes. -/
def sampleNodeInputs : NodeInputs :=
  { name := "node0", cluster := "bar", image := "rancher/k3s:latest"
    memory := "", role := "agent" }

/-- A node environment in which every call succeeds. -/
def sampleNodeEnvOk : NodeEnv :=
  { nodeAddErr := none, nodeGetErr := none }

/- ---------------------------------------------------------------------
Helper lemmas shared by the claim theorems
--------------------------------------------------------------------- -/

/-- The guarded match in expandPorts is just a map. -/
theorem expandPorts_eq_map (l : List PortBlock) :
    expandPorts l = l.map (fun p =>
      { port := encodePort p, nodeFilters := p.nodeFilters }) := by
  cases l <;> rfl

/-- The guarded match in expandVolumes is just a map. -/
theorem expandVolumes_eq_map (l : List VolumeBlock) :
    expandVolumes l = l.map (fun v =>
      { volume := encodeVolume v.source v.destination
        nodeFilters := v.nodeFilters }) := by
  cases l <;> rfl

/-- The guarded match in expandRegistryVolumes is just a map. -/
theorem expandRegistryVolumes_eq_map (l : List RegVolumeBlock) :
    expandRegistryVolumes l = l.map (fun v =>
      encodeVolume v.source v.destination) := by
  cases l <;> rfl

/-- The code volume encoding agrees with the spec wording. -/
theorem encodeVolume_eq_spec (s d : String) :
    encodeVolume s d = specVolumeString s d := by
  by_cases h : s = "" <;> simp [encodeVolume, specVolumeString, h]

/-- The code port encoding agrees with the spec wording. -/
theorem encodePort_eq_spec (p : PortBlock) :
    encodePort p = specPortString p.host p.hostPort p.containerPort
      p.protocol := rfl

/- ---------------------------------------------------------------------
Claim C1
--------------------------------------------------------------------- -/

/-- Claim C1, counterexample: a successful cluster Create with name bar
assigns the identity "bar", not the prefixed identity
"<prefix>-bar" the claim requires for all three resource kinds. -/
theorem C1_counterexample :
    (resourceClusterCreate (sampleInputs "bar") sampleCreateEnvOk).id
      = some "bar"
    ∧ some "bar" ≠ some (defaultObjectNamePrefix ++ "-" ++ "bar") := by
  exact ⟨rfl, by decide⟩

/-- Claim C1, amended: node and registry Creates assign the prefixed
identity `<prefix>-<name>`, but a cluster Create assigns the plain
user-supplied name as its identity. -/
theorem C1_amended (ri : RegistryInputs) (renv : RegistryEnv)
    (ni : NodeInputs) (nenv : NodeEnv)
    (ci : ClusterInputs) (cenv : ClusterCreateEnv) (ko : KubeconfigOpts)
    (hr : renv.registryRunErr = none)
    (hn : nenv.nodeAddErr = none)
    (ht : cenv.transform = Except.ok ko)
    (hp : cenv.processErr = none)
    (hv : cenv.validateErr = none)
    (hg : cenv.clusterGetErr ≠ none)
    (hrun : cenv.clusterRunErr = none) :
    (resourceRegistryCreate ri renv).id
      = some (defaultObjectNamePrefix ++ "-" ++ ri.name)
    ∧ (resourceNodeCreate ni nenv).id
      = some (defaultObjectNamePrefix ++ "-" ++ ni.name)
    ∧ (resourceClusterCreate ci cenv).id = some ci.name := by
  refine ⟨?_, ?_, ?_⟩
  · cases hng : renv.nodeGetErr <;> simp [resourceRegistryCreate, hr, hng]
  · cases hng : nenv.nodeGetErr <;> simp [resourceNodeCreate, hn, hng]
  · cases hge : cenv.clusterGetErr with
    | none => exact absurd hge hg
    | some g => simp [resourceClusterCreate, ht, hp, hv, hge, hrun]

/-- Claim C1, witness: the amended statement at concrete inputs. -/
theorem C1_amended_witness :
    (resourceRegistryCreate sampleRegistryInputs sampleRegistryEnvOk).id
      = some (defaultObjectNamePrefix ++ "-" ++ "reg")
    ∧ (resourceNodeCreate sampleNodeInputs sampleNodeEnvOk).id
      = some (defaultObjectNamePrefix ++ "-" ++ "node0")
    ∧ (resourceClusterCreate (sampleInputs "bar") sampleCreateEnvOk).id
      = some "bar" :=
  C1_amended sampleRegistryInputs sampleRegistryEnvOk sampleNodeInputs
    sampleNodeEnvOk (sampleInputs "bar") sampleCreateEnvOk
    { switchCurrentContext := false, updateDefaultKubeconfig := false }
    rfl rfl rfl rfl rfl (by decide) rfl

/- ---------------------------------------------------------------------
Claim C2
--------------------------------------------------------------------- -/

/-- Claim C2, counterexample: when the create fails and the compensating
delete also fails, the returned rollback-failed diagnostic carries
Severity.error, exactly the severity of the plain creation diagnostic
returned when only the create fails, so it is not surfaced as more
severe. -/
theorem C2_counterexample :
    (resourceClusterCreate (sampleInputs "bar") envRunAndDeleteFail).result
      = Outcome.ok [{ severity := Severity.error, summary := rollbackFailedMsg }]
    ∧ (resourceClusterCreate (sampleInputs "bar") envRunFailDeleteOk).result
      = Outcome.ok [{ severity := Severity.error, summary := "boom" }]
    ∧ ¬ Severity.strictlyMoreSevere Severity.error Severity.error := by
  refine ⟨rfl, rfl, ?_⟩
  intro h
  exact absurd h.2 (by decide)

/-- Claim C2, amended: on create failure a compensating delete is issued
for the same cluster name before returning; if the delete succeeds the
original creation error is returned, and if the delete also fails a
distinct rollback-failed error with a fixed message is returned instead,
at the same Error severity as a plain creation failure. -/
theorem C2_amended (i : ClusterInputs) (env : ClusterCreateEnv)
    (ko : KubeconfigOpts) (g e : String)
    (ht : env.transform = Except.ok ko)
    (hp : env.processErr = none)
    (hv : env.validateErr = none)
    (hg : env.clusterGetErr = some g)
    (hrun : env.clusterRunErr = some e) :
    (resourceClusterCreate i env).calls
      = [ExtCall.transform, ExtCall.process, ExtCall.validate,
         ExtCall.clusterGet i.name, ExtCall.clusterRun,
         ExtCall.clusterDelete i.name]
    ∧ (env.clusterDeleteErr = none →
        (resourceClusterCreate i env).result
          = Outcome.ok [Diagnostic.fromErr e])
    ∧ (env.clusterDeleteErr ≠ none →
        (resourceClusterCreate i env).result
          = Outcome.ok [Diagnostic.errorf rollbackFailedMsg])
    ∧ (Diagnostic.errorf rollbackFailedMsg).severity
      = (Diagnostic.fromErr e).severity := by
  refine ⟨?_, ?_, ?_, rfl⟩
  · cases hd : env.clusterDeleteErr <;>
      simp [resourceClusterCreate, ht, hp, hv, hg, hrun, hd]
  · intro hd
    simp [resourceClusterCreate, ht, hp, hv, hg, hrun, hd]
  · intro hd
    cases hd2 : env.clusterDeleteErr with
    | none => exact absurd hd2 hd
    | some d => simp [resourceClusterCreate, ht, hp, hv, hg, hrun, hd2]

/-- Claim C2, witness: the amended statement at a concrete environment in
which both the create and the rollback delete fail. -/
theorem C2_amended_witness :
    (resourceClusterCreate (sampleInputs "bar") envRunAndDeleteFail).calls
      = [ExtCall.transform, ExtCall.process, ExtCall.validate,
         ExtCall.clusterGet "bar", ExtCall.clusterRun,
         ExtCall.clusterDelete "bar"]
    ∧ (envRunAndDeleteFail.clusterDeleteErr = none →
        (resourceClusterCreate (sampleInputs "bar") envRunAndDeleteFail).result
          = Outcome.ok [Diagnostic.fromErr "boom"])
    ∧ (envRunAndDeleteFail.clusterDeleteErr ≠ none →
        (resourceClusterCreate (sampleInputs "bar") envRunAndDeleteFail).result
          = Outcome.ok [Diagnostic.errorf rollbackFailedMsg])
    ∧ (Diagnostic.errorf rollbackFailedMsg).severity
      = (Diagnostic.fromErr "boom").severity :=
  C2_amended (sampleInputs "bar") envRunAndDeleteFail
    { switchCurrentContext := false, updateDefaultKubeconfig := false }
    "cluster not found" "boom" rfl rfl rfl rfl rfl

/- ---------------------------------------------------------------------
Claim C3
--------------------------------------------------------------------- -/

/-- Claim C3: after the transform, process and validate stages succeed, a
cluster Create whose existence check finds a cluster with the target
identity fails with the fixed already-exists error, performs no external
mutation (neither ClusterRun nor ClusterDelete appears in the trace, which
stops at the ClusterGet probe), and assigns no id. -/
theorem C3_already_exists_no_mutation (i : ClusterInputs)
    (env : ClusterCreateEnv) (ko : KubeconfigOpts)
    (ht : env.transform = Except.ok ko)
    (hp : env.processErr = none)
    (hv : env.validateErr = none)
    (hg : env.clusterGetErr = none) :
    (resourceClusterCreate i env).result
      = Outcome.ok [Diagnostic.errorf alreadyExistsMsg]
    ∧ (resourceClusterCreate i env).calls
      = [ExtCall.transform, ExtCall.process, ExtCall.validate,
         ExtCall.clusterGet i.name]
    ∧ ExtCall.clusterRun ∉ (resourceClusterCreate i env).calls
    ∧ ExtCall.clusterDelete i.name ∉ (resourceClusterCreate i env).calls
    ∧ (resourceClusterCreate i env).id = none := by
  refine ⟨?_, ?_, ?_, ?_, ?_⟩ <;>
    simp [resourceClusterCreate, ht, hp, hv, hg]

/-- Claim C3, witness: the statement at a concrete environment in which a
cluster with the target name already exists. -/
theorem C3_witness :
    (resourceClusterCreate (sampleInputs "bar")
        { sampleCreateEnvOk with clusterGetErr := none }).result
      = Outcome.ok [Diagnostic.errorf alreadyExistsMsg]
    ∧ (resourceClusterCreate (sampleInputs "bar")
        { sampleCreateEnvOk with clusterGetErr := none }).calls
      = [ExtCall.transform, ExtCall.process, ExtCall.validate,
         ExtCall.clusterGet "bar"]
    ∧ ExtCall.clusterRun ∉ (resourceClusterCreate (sampleInputs "bar")
        { sampleCreateEnvOk with clusterGetErr := none }).calls
    ∧ ExtCall.clusterDelete "bar" ∉ (resourceClusterCreate (sampleInputs "bar")
        { sampleCreateEnvOk with clusterGetErr := none }).calls
    ∧ (resourceClusterCreate (sampleInputs "bar")
        { sampleCreateEnvOk with clusterGetErr := none }).id = none :=
  C3_already_exists_no_mutation (sampleInputs "bar")
    { sampleCreateEnvOk with clusterGetErr := none }
    { switchCurrentContext := false, updateDefaultKubeconfig := false }
    rfl rfl rfl rfl

/- ---------------------------------------------------------------------
Claim C4
--------------------------------------------------------------------- -/

/-- Claim C4, counterexample: a cluster Create whose registries.create
block omits host_port leaves the managed-registry host port as the empty
string, which is not a valid port number between 1 and 65535; no
ephemeral port is allocated for it by the provider. -/
theorem C4_counterexample :
    (buildSimpleConfig 40000
        { sampleInputs "bar" with registries := [regBlockNoPort] }
      ).registries.create
      = some { name := "reg", host := "", image := "", hostPort := "" }
    ∧ isValidPortString "" = false := by
  exact ⟨rfl, by decide⟩

/-- Claim C4, amended: the registries.create expansion of a cluster
Create copies host_port through verbatim as a string, so an omitted
host_port stays empty rather than receiving an ephemeral port; ephemeral
allocation in the provider applies only to the kube_api exposure options
and to the standalone registry resource. -/
theorem C4_amended (freePort : Nat) (i : ClusterInputs) (cfg : String)
    (rtc : RegistryCreateBlock) (use : List String)
    (rest : List RegistriesBlock)
    (hreg : i.registries
      = { config := cfg, create := [rtc], use := use } :: rest) :
    (buildSimpleConfig freePort i).registries.create
      = some { name := rtc.name, host := rtc.host, image := rtc.image
               hostPort := rtc.hostPort } := by
  simp [buildSimpleConfig, expandRegistries, hreg]

/-- Claim C4, witness: the amended statement at the concrete block whose
host_port is omitted. -/
theorem C4_amended_witness :
    (buildSimpleConfig 40000
        { sampleInputs "bar" with registries := [regBlockNoPort] }
      ).registries.create
      = some { name := "reg", host := "", image := "", hostPort := "" } :=
  C4_amended 40000 { sampleInputs "bar" with registries := [regBlockNoPort] }
    "" { name := "reg", host := "", image := "", hostPort := "" } [] [] rfl

/- ---------------------------------------------------------------------
Claim C5
--------------------------------------------------------------------- -/

/-- Claim C5, counterexample: a port block with protocol and host_port
both unset expands to the entry ":0:80/", which carries a 0 host port and
an empty protocol — no TCP default and no ephemeral allocation are
applied by expandPorts. -/
theorem C5_counterexample :
    expandPorts [portBlockUnset] = [{ port := ":0:80/", nodeFilters := [] }]
    ∧ strContains ":0:80/" ":0:" = true
    ∧ strContains ":0:80/" "TCP" = false := by
  refine ⟨rfl, by decide, by decide⟩

/-- Claim C5, amended: expandPorts encodes each port block verbatim: an
unset protocol yields an entry ending in a bare slash with an empty
protocol, and an unset host_port is encoded as the literal 0; defaulting
and ephemeral allocation, if any, are left to the downstream external
library. -/
theorem C5_amended (h : String) (hp cp : Nat) (nf : List String)
    (rest : List PortBlock) :
    expandPorts ({ host := h, hostPort := hp, containerPort := cp
                   protocol := "", nodeFilters := nf } :: rest)
      = { port := h ++ ":" ++ toString hp ++ ":" ++ toString cp ++ "/"
          nodeFilters := nf } :: expandPorts rest := by
  rw [expandPorts_eq_map, expandPorts_eq_map, List.map_cons]
  simp [encodePort]

/-- Claim C5, witness: the amended statement at the concrete block with
protocol and host_port unset. -/
theorem C5_amended_witness :
    expandPorts (portBlockUnset :: [])
      = { port := "" ++ ":" ++ toString 0 ++ ":" ++ toString 80 ++ "/"
          nodeFilters := ([] : List String) } :: expandPorts [] :=
  C5_amended "" 0 80 [] []

/- ---------------------------------------------------------------------
Claim C6
--------------------------------------------------------------------- -/

/-- Claim C6: every cluster volume and registry volume expands to the
spec wire encoding (source:destination when the source is non-empty, else
destination alone), and every port block expands to the spec wire
encoding host:hostPort:containerPort/protocol. -/
theorem C6_wire_encodings :
    (∀ l, expandVolumes l = l.map (fun v =>
        { volume := specVolumeString v.source v.destination
          nodeFilters := v.nodeFilters }))
    ∧ (∀ l, expandRegistryVolumes l = l.map (fun v =>
        specVolumeString v.source v.destination))
    ∧ (∀ l, expandPorts l = l.map (fun p =>
        { port := specPortString p.host p.hostPort p.containerPort p.protocol
          nodeFilters := p.nodeFilters })) := by
  refine ⟨fun l => ?_, fun l => ?_, fun l => ?_⟩
  · rw [expandVolumes_eq_map]
    exact List.map_congr_left (fun v _ => by rw [encodeVolume_eq_spec])
  · rw [expandRegistryVolumes_eq_map]
    exact List.map_congr_left (fun v _ => by rw [encodeVolume_eq_spec])
  · rw [expandPorts_eq_map]
    exact List.map_congr_left (fun p _ => by rw [encodePort_eq_spec])

/- ---------------------------------------------------------------------
Claim C7
--------------------------------------------------------------------- -/

/-- A cluster Read never calls the kubeconfig merge. -/
theorem resourceClusterRead_no_write (name : String) (env : ClusterReadEnv)
    (o : WriteKubeConfigOptions) :
    ExtCall.kubeconfigGetWrite o ∉ (resourceClusterRead name env).calls := by
  cases hc : env.clusterGetErr with
  | some e => simp [resourceClusterRead, hc]
  | none =>
    cases hk : env.kubeconfigGetErr with
    | some e => simp [resourceClusterRead, hc, hk]
    | none =>
      cases hf : flattenCredentials name env.kubeconfig <;>
        simp [resourceClusterRead, hc, hk, hf]

/-- Claim C7: once a cluster Create reaches the Created state, a failing
kubeconfig merge changes neither its result nor its id (the failure is
recorded only as a logged warning), a failing kubeconfig fetch during the
chained Read yields a clean result with no error diagnostic, and any merge
that is performed updates the existing context (UpdateExisting true,
OverwriteExisting false). -/
theorem C7_kubeconfig_best_effort (i : ClusterInputs)
    (env : ClusterCreateEnv) (ko : KubeconfigOpts) (w : Option String)
    (e : String) (o : WriteKubeConfigOptions)
    (ht : env.transform = Except.ok ko)
    (hp : env.processErr = none)
    (hv : env.validateErr = none)
    (hg : env.clusterGetErr ≠ none)
    (hrun : env.clusterRunErr = none) :
    (resourceClusterCreate i { env with kubeconfigWriteErr := w }).result
      = (resourceClusterCreate i { env with kubeconfigWriteErr := none }).result
    ∧ (resourceClusterCreate i { env with kubeconfigWriteErr := w }).id
      = (resourceClusterCreate i { env with kubeconfigWriteErr := none }).id
    ∧ (env.read.clusterGetErr = none → env.read.kubeconfigGetErr ≠ none →
        (resourceClusterCreate i env).result = Outcome.ok [])
    ∧ (ExtCall.kubeconfigGetWrite o ∈ (resourceClusterCreate i env).calls →
        o.updateExisting = true ∧ o.overwriteExisting = false)
    ∧ (ko.updateDefaultKubeconfig = true →
        e ∈ (resourceClusterCreate i
              { env with kubeconfigWriteErr := some e }).warnings) := by
  obtain ⟨g, hge⟩ := Option.ne_none_iff_exists'.mp hg
  refine ⟨?_, ?_, ?_, ?_, ?_⟩
  · simp [resourceClusterCreate, ht, hp, hv, hge, hrun]
  · simp [resourceClusterCreate, ht, hp, hv, hge, hrun]
  · intro hrc hrk
    obtain ⟨f, hk⟩ := Option.ne_none_iff_exists'.mp hrk
    simp [resourceClusterCreate, ht, hp, hv, hge, hrun,
      resourceClusterRead, hrc, hk]
  · intro hmem
    have hnr := resourceClusterRead_no_write i.name env.read o
    cases hko : ko.updateDefaultKubeconfig <;>
      simp [resourceClusterCreate, ht, hp, hv, hge, hrun, hko] at hmem
    · exact absurd hmem hnr
    · rcases hmem with hmem | hmem
      · rw [hmem]
        exact ⟨rfl, rfl⟩
      · exact absurd hmem hnr
  · intro hko
    simp [resourceClusterCreate, ht, hp, hv, hge, hrun, hko]

/-- Claim C7, witness: the statement at a concrete environment with the
kubeconfig-sync option enabled and a failing merge. -/
theorem C7_witness :
    (resourceClusterCreate (sampleInputs "bar")
        { sampleCreateEnvKC with kubeconfigWriteErr := some "wfail" }).result
      = (resourceClusterCreate (sampleInputs "bar")
          { sampleCreateEnvKC with kubeconfigWriteErr := none }).result
    ∧ (resourceClusterCreate (sampleInputs "bar")
        { sampleCreateEnvKC with kubeconfigWriteErr := some "wfail" }).id
      = (resourceClusterCreate (sampleInputs "bar")
          { sampleCreateEnvKC with kubeconfigWriteErr := none }).id
    ∧ (sampleCreateEnvKC.read.clusterGetErr = none →
        sampleCreateEnvKC.read.kubeconfigGetErr ≠ none →
        (resourceClusterCreate (sampleInputs "bar") sampleCreateEnvKC).result
          = Outcome.ok [])
    ∧ (ExtCall.kubeconfigGetWrite
          { updateExisting := true, overwriteExisting := false
            updateCurrentContext := false }
        ∈ (resourceClusterCreate (sampleInputs "bar") sampleCreateEnvKC).calls →
        ({ updateExisting := true, overwriteExisting := false
           updateCurrentContext := false } : WriteKubeConfigOptions
          ).updateExisting = true
        ∧ ({ updateExisting := true, overwriteExisting := false
             updateCurrentContext := false } : WriteKubeConfigOptions
            ).overwriteExisting = false)
    ∧ (({ switchCurrentContext := false, updateDefaultKubeconfig := true
          } : KubeconfigOpts).updateDefaultKubeconfig = true →
        "wfail" ∈ (resourceClusterCreate (sampleInputs "bar")
              { sampleCreateEnvKC with kubeconfigWriteErr := some "wfail" }
            ).warnings) :=
  C7_kubeconfig_best_effort (sampleInputs "bar") sampleCreateEnvKC
    { switchCurrentContext := false, updateDefaultKubeconfig := true }
    (some "wfail") "wfail"
    { updateExisting := true, overwriteExisting := false
      updateCurrentContext := false }
    rfl rfl rfl (by decide) rfl

/- ---------------------------------------------------------------------
Claim C8
--------------------------------------------------------------------- -/

/-- Claim C8, counterexample: when the create fails with "boom" and the
compensating delete fails with "bang", the returned rollback-failed
message is a fixed string containing neither underlying collaborator
error text. -/
theorem C8_counterexample :
    (resourceClusterCreate (sampleInputs "bar") envRunAndDeleteFail).result
      = Outcome.ok [Diagnostic.errorf rollbackFailedMsg]
    ∧ strContains rollbackFailedMsg "boom" = false
    ∧ strContains rollbackFailedMsg "bang" = false := by
  refine ⟨rfl, by decide, by decide⟩

/-- Claim C8, amended: every error propagated through diag.FromErr —
create failures in the transform, process and validate stages, a create
failure whose rollback delete succeeds, and the Read and Delete
operations of all three resources — carries the underlying collaborator
error text verbatim as its summary; the rollback-failed error is the
exception and returns a fixed message without the underlying text. -/
theorem C8_amended (i : ClusterInputs) (env : ClusterCreateEnv)
    (ko : KubeconfigOpts) (g e : String) (cname rname nname : String)
    (ht : env.transform = Except.ok ko)
    (hp : env.processErr = none)
    (hv : env.validateErr = none)
    (hg : env.clusterGetErr = some g)
    (hrun : env.clusterRunErr = some e)
    (hdel : env.clusterDeleteErr = none) :
    (resourceClusterCreate i env).result = Outcome.ok [Diagnostic.fromErr e]
    ∧ (resourceClusterDelete cname (some e)).snd = [Diagnostic.fromErr e]
    ∧ (resourceClusterRead cname
        { clusterGetErr := some e, network := "", token := ""
          kubeconfigGetErr := none
          kubeconfig := { authInfos := [], clusters := [] } }).result
      = Outcome.ok [Diagnostic.fromErr e]
    ∧ (resourceRegistryRead rname (some e)).snd = [Diagnostic.fromErr e]
    ∧ (resourceRegistryDelete rname (some e)).snd = [Diagnostic.fromErr e]
    ∧ (resourceNodeRead nname (some e)).snd = [Diagnostic.fromErr e]
    ∧ (resourceNodeDelete nname (some e)).snd = [Diagnostic.fromErr e]
    ∧ (Diagnostic.fromErr e).summary = e := by
  refine ⟨?_, rfl, rfl, rfl, rfl, rfl, rfl, rfl⟩
  simp [resourceClusterCreate, ht, hp, hv, hg, hrun, hdel]

/-- Claim C8, witness: the amended statement at concrete inputs. -/
theorem C8_amended_witness :
    (resourceClusterCreate (sampleInputs "bar") envRunFailDeleteOk).result
      = Outcome.ok [Diagnostic.fromErr "boom"]
    ∧ (resourceClusterDelete "bar" (some "boom")).snd
      = [Diagnostic.fromErr "boom"]
    ∧ (resourceClusterRead "bar"
        { clusterGetErr := some "boom", network := "", token := ""
          kubeconfigGetErr := none
          kubeconfig := { authInfos := [], clusters := [] } }).result
      = Outcome.ok [Diagnostic.fromErr "boom"]
    ∧ (resourceRegistryRead "reg" (some "boom")).snd
      = [Diagnostic.fromErr "boom"]
    ∧ (resourceRegistryDelete "reg" (some "boom")).snd
      = [Diagnostic.fromErr "boom"]
    ∧ (resourceNodeRead "node0" (some "boom")).snd
      = [Diagnostic.fromErr "boom"]
    ∧ (resourceNodeDelete "node0" (some "boom")).snd
      = [Diagnostic.fromErr "boom"]
    ∧ (Diagnostic.fromErr "boom").summary = "boom" :=
  C8_amended (sampleInputs "bar") envRunFailDeleteOk
    { switchCurrentContext := false, updateDefaultKubeconfig := false }
    "cluster not found" "boom" "bar" "reg" "node0"
    rfl rfl rfl rfl rfl rfl

/- ---------------------------------------------------------------------
Claim C9
--------------------------------------------------------------------- -/

/-- Claim C9: each of the three Creates assigns a resource id exactly
when its external create call (and, for clusters, every stage before it)
succeeded; a transform, process, validate, already-exists or runtime
create failure leaves the id unset. -/
theorem C9_id_set_iff_created (i : ClusterInputs) (env : ClusterCreateEnv)
    (ri : RegistryInputs) (renv : RegistryEnv)
    (ni : NodeInputs) (nenv : NodeEnv) :
    ((resourceClusterCreate i env).id ≠ none ↔
      (∃ ko, env.transform = Except.ok ko) ∧ env.processErr = none
      ∧ env.validateErr = none ∧ env.clusterGetErr ≠ none
      ∧ env.clusterRunErr = none)
    ∧ ((resourceRegistryCreate ri renv).id ≠ none ↔
        renv.registryRunErr = none)
    ∧ ((resourceNodeCreate ni nenv).id ≠ none ↔ nenv.nodeAddErr = none) := by
  refine ⟨?_, ?_, ?_⟩
  · cases ht : env.transform <;> cases hp : env.processErr <;>
      cases hv : env.validateErr <;> cases hg : env.clusterGetErr <;>
      cases hr : env.clusterRunErr <;> cases hd : env.clusterDeleteErr <;>
      simp [resourceClusterCreate, ht, hp, hv, hg, hr, hd]
  · cases hr : renv.registryRunErr <;> cases hn : renv.nodeGetErr <;>
      simp [resourceRegistryCreate, hr, hn]
  · cases ha : nenv.nodeAddErr <;> cases hn : nenv.nodeGetErr <;>
      simp [resourceNodeCreate, ha, hn]

/-- Claim C9, witness: at a fully successful concrete environment all
three Creates assign an id. -/
theorem C9_witness :
    (resourceClusterCreate (sampleInputs "bar") sampleCreateEnvOk).id ≠ none
    ∧ (resourceRegistryCreate sampleRegistryInputs sampleRegistryEnvOk).id
      ≠ none
    ∧ (resourceNodeCreate sampleNodeInputs sampleNodeEnvOk).id ≠ none := by
  obtain ⟨hc, hr, hn⟩ := C9_id_set_iff_created (sampleInputs "bar")
    sampleCreateEnvOk sampleRegistryInputs sampleRegistryEnvOk
    sampleNodeInputs sampleNodeEnvOk
  refine ⟨hc.mpr ?_, hr.mpr rfl, hn.mpr rfl⟩
  exact ⟨⟨{ switchCurrentContext := false, updateDefaultKubeconfig := false },
    rfl⟩, rfl, rfl, by decide, rfl⟩

/- ---------------------------------------------------------------------
Claim C10
--------------------------------------------------------------------- -/

/-- Claim C10: flattenCredentials looks up the auth-info entry
admin@<prefix>-<name> and the cluster entry <prefix>-<name> with no
presence check, so whenever the kubeconfig fetched by a successful
cluster Read lacks either entry, the credential flattening step crashes
(a Go nil dereference, the Outcome.crash of the model) instead of
returning an error diagnostic. -/
theorem C10_flatten_crash (name net tok : String) (cfg : KubeConfig)
    (h : lookupEntry cfg.authInfos
          ("admin@" ++ defaultObjectNamePrefix ++ "-" ++ name) = none
       ∨ lookupEntry cfg.clusters
          (defaultObjectNamePrefix ++ "-" ++ name) = none) :
    flattenCredentials name cfg = none
    ∧ (resourceClusterRead name
        { clusterGetErr := none, network := net, token := tok
          kubeconfigGetErr := none, kubeconfig := cfg }).result
      = Outcome.crash := by
  have hflat : flattenCredentials name cfg = none := by
    rcases h with h | h
    · simp [flattenCredentials, h]
    · cases ha : lookupEntry cfg.authInfos
          ("admin@" ++ defaultObjectNamePrefix ++ "-" ++ name) <;>
        simp [flattenCredentials, ha, h]
  exact ⟨hflat, by simp [resourceClusterRead, hflat]⟩

/-- Claim C10, witness: the statement at an empty fetched kubeconfig. -/
theorem C10_witness :
    flattenCredentials "bar" { authInfos := [], clusters := [] } = none
    ∧ (resourceClusterRead "bar"
        { clusterGetErr := none, network := "bridge", token := "tok"
          kubeconfigGetErr := none
          kubeconfig := { authInfos := [], clusters := [] } }).result
      = Outcome.crash :=
  C10_flatten_crash "bar" "bridge" "tok"
    { authInfos := [], clusters := [] } (Or.inl rfl)

end K3d
